import Mathlib

set_option linter.unusedVariables false
set_option maxRecDepth 8000

/-!
Shallow embedding of the staged generation pipeline of The Alchemist Forge:
the retrying remote-call executor, its transient/terminal error
classification, the listing-copy stage, the mockup batch stage, the asset
finalization orchestrator and the publish stage, together with theorems
about their retry, ordering, progress and error-propagation behaviour.
Remote collaborators are modelled as oracles: a function from the attempt
index (and, for the mockup batch, the template index) to the outcome the
collaborator would return on that call.
-/

/-! ## Data model -/

structure ProductConcept where
  conceptTitle : String
  displayText : String
  fusion : List String
  vision : String
  whyItWorks : String
deriving DecidableEq

structure ListingCopy where
  title : String
  description : String
  variations : List String
  tags : List String
deriving DecidableEq

inductive ProductType where
  | sweatshirt
  | mug
  | ornament
  | tshirt
  | toteBag
  | pillow
  | hoodie
deriving DecidableEq

def productTypeStr : ProductType → String
  | .sweatshirt => "Sweatshirt"
  | .mug => "Mug"
  | .ornament => "Ornament"
  | .tshirt => "T-Shirt"
  | .toteBag => "Tote Bag"
  | .pillow => "Pillow"
  | .hoodie => "Hoodie"

/-! ## Error representation and the retrying executor (withRetry)

A remote failure is a heterogeneous JavaScript error object; the executor
probes status at the top level (error.status), in a nested response
(error.response.status) and in a nested error (error.error.code), and the
message at the top level (error.message), in a nested error
(error.error.message), falling back to the JSON serialization of the whole
object. A JavaScript falsy field (absent, zero, empty string) falls through
to the next probe, which jsOr models. -/

structure JsError where
  status : Option Nat
  responseStatus : Option Nat
  errorCode : Option Nat
  message : Option String
  errorMessage : Option String
  stringified : String
deriving DecidableEq

def jsOrNat : Option Nat → Option Nat → Option Nat
  | some n, o => if n = 0 then o else some n
  | none, o => o

def jsOrStr : Option String → Option String → Option String
  | some s, o => if s = "" then o else some s
  | none, o => o

def getStatus (e : JsError) : Option Nat :=
  jsOrNat e.status (jsOrNat e.responseStatus e.errorCode)

def getMessage (e : JsError) : String :=
  match jsOrStr e.message (jsOrStr e.errorMessage none) with
  | some m => m
  | none => e.stringified

/-- Is pat a leading segment of l? -/
def listHasPre : List Char → List Char → Bool
  | [], _ => true
  | _ :: _, [] => false
  | a :: pat, b :: l => a == b && listHasPre pat l

/-- Does pat occur contiguously somewhere in l? -/
def listContains (pat : List Char) : List Char → Bool
  | [] => pat.isEmpty
  | c :: l => listHasPre pat (c :: l) || listContains pat l

def containsSubstr (s pat : String) : Bool :=
  listContains pat.toList s.toList

/-- Lower-casing a string character by character (the definition of
String.toLower, spelled out so that it evaluates inside the kernel). -/
def lowerStr (s : String) : String :=
  String.mk (s.toList.map Char.toLower)

/-- The transient/terminal classification of withRetry, translated from the
source: lower-cased message substring markers plus status equality. -/
def isRetryable (e : JsError) : Bool :=
  let errorMessage := lowerStr (getMessage e)
  containsSubstr errorMessage "429" ||
  containsSubstr errorMessage "resource_exhausted" ||
  containsSubstr errorMessage "quota" ||
  containsSubstr errorMessage "internal" ||
  containsSubstr errorMessage "overloaded" ||
  containsSubstr errorMessage "server error" ||
  getStatus e == some 500 ||
  getStatus e == some 503

/-- JavaScript string interpolation of a possibly-undefined status. -/
def statusStr : Option Nat → String
  | none => "undefined"
  | some n => toString n

/-- The message of the error thrown once a transient error has exhausted
its retries. -/
def busyMessage (e : JsError) : String :=
  "The AI service is temporarily busy (Error " ++ statusStr (getStatus e) ++
    "). Please try again shortly."

inductive RetryResult (α : Type) where
  | ok (v : α)
  | busy (msg : String)
  | failed (e : JsError)
deriving DecidableEq

/-- One run of the withRetry loop: k is the index of the next call, fuel is
maxRetries minus the retries already spent. Returns the outcome together
with the list of backoff waits performed, in order. -/
def withRetryGo {α : Type} (attempts : Nat → Except JsError α) (k delay fuel : Nat) :
    RetryResult α × List Nat :=
  match attempts k with
  | .ok v => (.ok v, [])
  | .error e =>
    if isRetryable e then
      match fuel with
      | 0 => (.busy (busyMessage e), [])
      | fuel' + 1 =>
        let rest := withRetryGo attempts (k + 1) (delay * 2) fuel'
        (rest.1, delay :: rest.2)
    else (.failed e, [])

def defaultMaxRetries : Nat := 5

def defaultInitialDelay : Nat := 2000

def withRetry {α : Type} (attempts : Nat → Except JsError α)
    (maxRetries initialDelay : Nat) : RetryResult α × List Nat :=
  withRetryGo attempts 0 initialDelay maxRetries

/-! ## Sanity examples for the executor -/

example :
    (withRetry (fun k => if k = 0 then Except.error
      { status := some 503, responseStatus := none, errorCode := none,
        message := some "overloaded", errorMessage := none, stringified := "e" }
      else Except.ok 7) defaultMaxRetries defaultInitialDelay) =
    (RetryResult.ok 7, [2000]) := by decide

/-! ## Thrown errors above the executor

JavaScript code in the pipeline either throws a freshly constructed Error
with a fixed message (Err.mk) or rethrows the original heterogeneous error
object (Err.js). -/

inductive Err where
  | mk (msg : String)
  | js (e : JsError)
deriving DecidableEq

instance {ε α : Type} [DecidableEq ε] [DecidableEq α] : DecidableEq (Except ε α) := fun a b =>
  match a, b with
  | .ok x, .ok y =>
    if h : x = y then .isTrue (congrArg Except.ok h)
    else .isFalse (fun hc => h (Except.ok.inj hc))
  | .error x, .error y =>
    if h : x = y then .isTrue (congrArg Except.error h)
    else .isFalse (fun hc => h (Except.error.inj hc))
  | .ok _, .error _ => .isFalse (fun hc => Except.noConfusion hc)
  | .error _, .ok _ => .isFalse (fun hc => Except.noConfusion hc)

def retryToExcept {α : Type} : RetryResult α → Except Err α
  | .ok v => .ok v
  | .busy m => .error (.mk m)
  | .failed e => .error (.js e)

/-- Listing Copy Stage: one structured-text call through the executor. The
collaborator oracle yields, per attempt, either a failure or the response
already parsed as the structured ListingCopy shape (the stage itself parses
the JSON text and applies no validation or correction of its own). -/
def generateListingCopy (attempts : Nat → Except JsError ListingCopy) :
    Except Err ListingCopy :=
  retryToExcept (withRetry attempts defaultMaxRetries defaultInitialDelay).1

/-! ## Image-generation responses and image extraction -/

structure InlineData where
  mimeType : String
  data : String
deriving DecidableEq

structure ResponsePart where
  inlineData : Option InlineData
  text : Option String
deriving DecidableEq

structure GenContent where
  parts : Option (List ResponsePart)
deriving DecidableEq

structure GenCandidate where
  content : GenContent
deriving DecidableEq

structure GenResponse where
  candidates : Option (List GenCandidate)
deriving DecidableEq

/-- The extraction applied to an image-generation response: first candidate,
its content parts when present, and the first part carrying inline data. -/
def findImagePart (r : GenResponse) : Option InlineData :=
  match r.candidates with
  | some (c :: _) =>
    match c.content.parts with
    | some parts =>
      match parts.find? (fun p => p.inlineData.isSome) with
      | some p => p.inlineData
      | none => none
    | none => none
  | _ => none

/-! ## Parsing the base64 data URL (base64ToPart) -/

/-- Split a character list at the first occurrence of c: the characters
before it and the characters after it, or none when c does not occur. -/
def splitFirst (c : Char) : List Char → Option (List Char × List Char)
  | [] => none
  | a :: l =>
    if a == c then some ([], l)
    else
      match splitFirst c l with
      | some (pre, post) => some (a :: pre, post)
      | none => none

/-- The mime-type extraction of base64ToPart: the characters between the
first colon and the first semicolon after it, defaulting to image/png. -/
def extractMime (header : List Char) : String :=
  match splitFirst ':' header with
  | none => "image/png"
  | some (_, rest) =>
    match splitFirst ';' rest with
    | none => "image/png"
    | some (mid, _) => String.mk mid

structure InlinePart where
  mimeType : String
  data : String
deriving DecidableEq

def invalidDataUrlMsg : String := "Invalid base64 data URL format."

/-- base64ToPart: destructure url.split(',') into [header, data]; a missing
or empty header or data throws. JavaScript split keeps only the first two
components for the destructuring, so data is the text between the first and
second comma (or to the end when there is only one comma). -/
def base64ToPart (base64DataUrl : String) : Except Err InlinePart :=
  match splitFirst ',' base64DataUrl.toList with
  | none => .error (.mk invalidDataUrlMsg)
  | some (header, rest) =>
    let data := match splitFirst ',' rest with
      | some (d, _) => d
      | none => rest
    if header.isEmpty || data.isEmpty then .error (.mk invalidDataUrlMsg)
    else .ok { mimeType := extractMime header, data := String.mk data }

/-- Whether i points at a comma of l that has at least one character before
it and at least one after it. -/
def goodCommaAt (l : List Char) (i : Nat) : Bool :=
  (l.getD i ' ' == ',') && decide (0 < i) && decide (i + 1 < l.length)

/-- Whether the string contains a comma separating a non-empty prefix from a
non-empty suffix (the condition of claim C10, stated independently of the
split performed by base64ToPart). -/
def containsSeparatingComma (s : String) : Bool :=
  (List.range s.toList.length).any (goodCommaAt s.toList)

/-! ## The twelve mockup scene templates -/

/-- The fixed ordered scene prompt list of the Mockup Batch Stage, with the
product type, holiday and concept fusion keywords interpolated and the
model-quality rule suffixed to every template. -/
def getMockupPrompts (productType : ProductType) (concept : ProductConcept)
    (holiday : String) : List String :=
  let modelQualityRule := "Model Quality Rule: The image must be photorealistic. If a person is visible, they must be in-focus with a natural, realistic pose and a clearly visible face. ABSOLUTELY NO headless or faceless/blurred-face models."
  let pt := productTypeStr productType
  let basePrompts := [
    "A professional studio hero mockup of a White (or very light neutral) " ++ pt ++ " featuring the design. Minimalist, neutral background. Perfect for an Etsy thumbnail.",
    "An aesthetic lifestyle mockup of a Sand or Beige " ++ pt ++ " with the design. Warm, cozy lighting.",
    "A high-contrast studio mockup of a Black " ++ pt ++ " with the design. Light background to make the product pop.",
    "A professional mockup of a Navy Blue " ++ pt ++ " showing the design. Clean setting.",
    "A cozy, authentic lifestyle shot of a Dark Heather Grey " ++ pt ++ " with the design. Candid and artistic composition.",
    "A studio shot of a Forest Green " ++ pt ++ " featuring the design. Neutral background.",
    "A studio shot of a Maroon " ++ pt ++ " featuring the design. Neutral background.",
    "A studio shot of a Light Pink " ++ pt ++ " featuring the design. Soft lighting.",
    "A close-up detail shot of the " ++ pt ++ " highlighting the texture and print quality of the design.",
    "A creative flatlay of the " ++ pt ++ " (in a neutral color) with the design, arranged with simple props related to " ++ holiday ++ " or " ++ String.intercalate ", " concept.fusion ++ ".",
    "A lifestyle photo showing the " ++ pt ++ " with the design in a clear " ++ holiday ++ " setting (e.g. near decorations, trees, or seasonal elements).",
    "A mockup of the " ++ pt ++ " with the design, shown from an angle or folded to display the form."]
  basePrompts.map (fun prompt => prompt ++ " " ++ modelQualityRule)

theorem getMockupPrompts_length (productType : ProductType)
    (concept : ProductConcept) (holiday : String) :
    (getMockupPrompts productType concept holiday).length = 12 := rfl

/-! ## The finalization stage (generateFinalAssets) and its trace

The trace records, in order, every progress report delivered to the
callback and every remote call issued (the call item marks the moment the
call runs and completes). -/

inductive CallKind where
  | listing
  | mockup (i : Nat)
deriving DecidableEq

inductive TraceItem where
  | report (current total : Nat)
  | call (k : CallKind)
deriving DecidableEq

def traceReports (tr : List TraceItem) : List (Nat × Nat) :=
  tr.filterMap (fun item =>
    match item with
    | .report c t => some (c, t)
    | .call _ => none)

/-- The mockup loop of generateFinalAssets from template index i with n
templates remaining: report progress (i + 2, totalSteps) before the call,
run the call through the executor, append the extracted image (when any) as
a jpeg data URL, and silently skip templates whose response carries no
extractable image. -/
def mockupGo (mockA : Nat → Nat → Except JsError GenResponse)
    (totalSteps i : Nat) : Nat → Except Err (List String) × List TraceItem
  | 0 => (.ok [], [])
  | n + 1 =>
    let tr : List TraceItem := [.report (i + 2) totalSteps, .call (.mockup i)]
    match retryToExcept (withRetry (mockA i) defaultMaxRetries defaultInitialDelay).1 with
    | .error m => (.error m, tr)
    | .ok resp =>
      let rest := mockupGo mockA totalSteps (i + 1) n
      let res := match findImagePart resp with
        | some d => rest.1.map (fun l => ("data:image/jpeg;base64," ++ d.data) :: l)
        | none => rest.1
      (res, tr ++ rest.2)

structure FinalRun where
  result : Except Err (List String × ListingCopy)
  trace : List TraceItem
deriving DecidableEq

/-- generateFinalAssets for one design: report (0, totalSteps), generate the
listing copy, report (1, totalSteps), parse the design data URL, run the
mockup loop over the twelve scene templates, and fail with the no-mockups
error exactly when the loop completed but collected no image. -/
def generateFinalAssets (designUrl : String) (concept : ProductConcept)
    (holiday : String) (productType : ProductType)
    (copyA : Nat → Except JsError ListingCopy)
    (mockA : Nat → Nat → Except JsError GenResponse) : FinalRun :=
  let scenePrompts := getMockupPrompts productType concept holiday
  let totalSteps := scenePrompts.length + 1
  let pre0 : List TraceItem := [.report 0 totalSteps, .call .listing]
  match generateListingCopy copyA with
  | .error m => { result := .error m, trace := pre0 }
  | .ok listingCopy =>
    let pre1 := pre0 ++ [.report 1 totalSteps]
    match base64ToPart designUrl with
    | .error m => { result := .error m, trace := pre1 }
    | .ok _designPart =>
      let loop := mockupGo mockA totalSteps 0 scenePrompts.length
      match loop.1 with
      | .error m => { result := .error m, trace := pre1 ++ loop.2 }
      | .ok mockupUrls =>
        if mockupUrls.isEmpty then
          { result := .error (.mk "No mockups were generated."), trace := pre1 ++ loop.2 }
        else
          { result := .ok (mockupUrls, listingCopy), trace := pre1 ++ loop.2 }

/-! ## The batch orchestrator (handleForgeAssets) -/

structure DesignItem where
  concept : ProductConcept
  url : String
  productType : ProductType
deriving DecidableEq

/-- One tuple of the finalization batch together with the collaborator
oracles in effect while it is processed. -/
structure DesignTask where
  item : DesignItem
  copyA : Nat → Except JsError ListingCopy
  mockA : Nat → Nat → Except JsError GenResponse

def designRun (holiday : String) (t : DesignTask) : FinalRun :=
  generateFinalAssets t.item.url t.item.concept holiday t.item.productType t.copyA t.mockA

structure FinalizedProduct where
  concept : ProductConcept
  designUrl : String
  mockups : List String
  listingCopy : ListingCopy
  productType : ProductType
  printifyId : Option String
deriving DecidableEq

structure BatchRun where
  result : Except Err (List FinalizedProduct)
  trace : List TraceItem
deriving DecidableEq

def mkFinalizedProduct (t : DesignTask) (pr : List String × ListingCopy) :
    FinalizedProduct :=
  { concept := t.item.concept, designUrl := t.item.url, mockups := pr.1,
    listingCopy := pr.2, productType := t.item.productType, printifyId := none }

/-- handleForgeAssets: process the tuples strictly in input order, pushing
each finalized product onto the accumulator; the first failing tuple aborts
the whole batch and the accumulated products are dropped. -/
def handleForgeAssets (holiday : String) : List DesignTask → BatchRun
  | [] => { result := .ok [], trace := [] }
  | t :: rest =>
    let r := designRun holiday t
    match r.result with
    | .error m => { result := .error m, trace := r.trace }
    | .ok pr =>
      let b := handleForgeAssets holiday rest
      let res := match b.result with
        | .ok l => Except.ok (mkFinalizedProduct t pr :: l)
        | .error m => Except.error m
      { result := res, trace := r.trace ++ b.trace }

/-- The finalizedProducts state after a batch: it is cleared when the batch
starts and set only when the whole batch succeeds, so a failed batch leaves
it empty. -/
def batchFinalizedState (r : Except Err (List FinalizedProduct)) :
    List FinalizedProduct :=
  match r with
  | .ok l => l
  | .error _ => []

/-! ## The publish stage (Printify service and handlePrintifyPublish) -/

structure PrintifyShop where
  id : String
  title : String
deriving DecidableEq

structure PrintifyImageUploadResponse where
  id : String
  file_name : String
  url : String
deriving DecidableEq

structure PrintifyProductResponse where
  id : String
  title : String
  external_id : String
deriving DecidableEq

structure CatalogMapping where
  blueprint_id : Nat
  print_provider_id : Nat
  variants : List Nat
  placement : String
deriving DecidableEq

/-- The static product-type to catalog mapping of the commerce service. -/
def PRODUCT_MAP : ProductType → CatalogMapping
  | .tshirt =>
    { blueprint_id := 12, print_provider_id := 29,
      variants := [45174, 45175, 45176], placement := "front" }
  | .hoodie =>
    { blueprint_id := 77, print_provider_id := 29,
      variants := [45426, 45427, 45428], placement := "front" }
  | .sweatshirt =>
    { blueprint_id := 53, print_provider_id := 29,
      variants := [45300, 45301, 45302], placement := "front" }
  | .mug =>
    { blueprint_id := 68, print_provider_id := 23,
      variants := [46317], placement := "front" }
  | .toteBag =>
    { blueprint_id := 485, print_provider_id := 3,
      variants := [58503], placement := "front" }
  | .pillow =>
    { blueprint_id := 58, print_provider_id := 3,
      variants := [45364], placement := "front" }
  | .ornament =>
    { blueprint_id := 847, print_provider_id := 66,
      variants := [96973], placement := "front" }

def isWordChar (c : Char) : Bool := c.isAlphanum || c == '_'

/-- The upload step strips a data-image header matching the pattern
colon-separated image mime plus the base64 marker from the front of the
payload, leaving the string unchanged when the pattern does not match. -/
def stripDataUrlHead (s : String) : String :=
  let cs := s.toList
  let lead := "data:image/".toList
  if listHasPre lead cs then
    let rest := cs.drop lead.length
    let w := rest.takeWhile isWordChar
    let rest2 := rest.drop w.length
    if w.isEmpty then s
    else if listHasPre ";base64,".toList rest2 then
      String.mk (rest2.drop ";base64,".toList.length)
    else s
  else s

/-- The outcome of one fetch against the commerce API: the parsed body on a
successful response, or the error body of a non-ok response. -/
inductive FetchRes (α : Type) where
  | ok (v : α)
  | httpError (body : String)
deriving DecidableEq

/-- Call 1 of the publish stage: resolve the first shop of the account. -/
def getPrintifyShop (r : FetchRes (List PrintifyShop)) : Except Err PrintifyShop :=
  match r with
  | .httpError _ => .error (.mk "Failed to fetch Printify shops. Check your API Token.")
  | .ok shops =>
    match shops with
    | [] => .error (.mk "No Printify shops found for this account.")
    | s :: _ => .ok { id := s.id, title := s.title }

/-- Call 2 of the publish stage: upload the design image bytes. -/
def uploadImageToPrintify (base64Image fileName : String)
    (r : FetchRes PrintifyImageUploadResponse) : Except Err String :=
  let _cleanBase64 := stripDataUrlHead base64Image
  match r with
  | .httpError body => .error (.mk ("Image upload failed: " ++ body))
  | .ok data => .ok data.id

structure VariantEntry where
  id : Nat
  price : Nat
  is_enabled : Bool
deriving DecidableEq

structure PlacedImage where
  id : String
  x : Rat
  y : Rat
  scale : Rat
  angle : Nat
deriving DecidableEq

structure PrintPlaceholder where
  position : String
  images : List PlacedImage
deriving DecidableEq

structure PrintArea where
  variant_ids : List Nat
  placeholders : List PrintPlaceholder
deriving DecidableEq

structure ProductPayload where
  title : String
  description : String
  blueprint_id : Nat
  print_provider_id : Nat
  variants : List VariantEntry
  print_areas : List PrintArea
  tags : List String
deriving DecidableEq

/-- The product-creation request body: catalog mapping of the product type,
every variant enabled at the fixed default price of 2500 cents, and the
uploaded image centered at 80 percent scale on the primary print area. -/
def printifyProductPayload (productType : ProductType) (imageId : String)
    (listingCopy : ListingCopy) : ProductPayload :=
  let mapping := PRODUCT_MAP productType
  { title := listingCopy.title,
    description := listingCopy.description,
    blueprint_id := mapping.blueprint_id,
    print_provider_id := mapping.print_provider_id,
    variants := mapping.variants.map (fun id => { id := id, price := 2500, is_enabled := true }),
    print_areas := [{ variant_ids := mapping.variants,
                      placeholders := [{ position := mapping.placement,
                                         images := [{ id := imageId, x := 1/2, y := 1/2,
                                                      scale := 4/5, angle := 0 }] }] }],
    tags := listingCopy.tags }

/-- Call 3 of the publish stage: create the product listing. -/
def createPrintifyProduct (productType : ProductType) (imageId : String)
    (listingCopy : ListingCopy) (r : FetchRes PrintifyProductResponse) :
    Except Err PrintifyProductResponse :=
  let _payload := printifyProductPayload productType imageId listingCopy
  match r with
  | .httpError body => .error (.mk ("Product creation failed: " ++ body))
  | .ok resp => .ok resp

/-- The filename derivation of the publish stage: every character that is
not an ASCII letter or digit becomes an underscore. -/
def sanitizeForFilename (s : String) : String :=
  String.mk (s.toList.map (fun c => if c.isAlphanum then c else '_'))

/-- The state update applied on a successful publish: set the publish
identifier on every finalized product whose concept title matches. -/
def publishUpdate (prev : List FinalizedProduct) (product : FinalizedProduct)
    (newId : String) : List FinalizedProduct :=
  prev.map (fun p =>
    if p.concept.conceptTitle = product.concept.conceptTitle
    then { p with printifyId := some newId }
    else p)

inductive PubCall where
  | shops
  | upload
  | create
deriving DecidableEq

/-- The commerce collaborator as attempt-indexed oracles, one per endpoint:
applying an oracle at n models the outcome the n-th call to that endpoint
would have. -/
structure PublishOracles where
  shops : Nat → FetchRes (List PrintifyShop)
  uploadRes : Nat → FetchRes PrintifyImageUploadResponse
  createRes : Nat → FetchRes PrintifyProductResponse

structure PublishRun where
  calls : List PubCall
  uploadRequest : Option (String × String)
  createRequest : Option ProductPayload
  errorMsg : Option Err
  successMsg : Option String
  finalizedProducts : List FinalizedProduct
deriving DecidableEq

/-- handlePrintifyPublish: with a non-empty token, resolve the shop, upload
the design (filename derived from the concept title), create the listing,
and on success stamp the new product id into the session state; each
endpoint is consulted once, at attempt index zero, and any failure stops
the sequence with the thrown error recorded. -/
def handlePrintifyPublish (printifyToken : String) (product : FinalizedProduct)
    (prev : List FinalizedProduct) (o : PublishOracles) : PublishRun :=
  if printifyToken = "" then
    { calls := [], uploadRequest := none, createRequest := none,
      errorMsg := none, successMsg := none, finalizedProducts := prev }
  else
    match getPrintifyShop (o.shops 0) with
    | .error e =>
      { calls := [.shops], uploadRequest := none, createRequest := none,
        errorMsg := some e, successMsg := none, finalizedProducts := prev }
    | .ok _shop =>
      let filename := sanitizeForFilename product.concept.conceptTitle ++ ".png"
      let req := (filename, stripDataUrlHead product.designUrl)
      match uploadImageToPrintify product.designUrl filename (o.uploadRes 0) with
      | .error e =>
        { calls := [.shops, .upload], uploadRequest := some req, createRequest := none,
          errorMsg := some e, successMsg := none, finalizedProducts := prev }
      | .ok imageId =>
        let payload := printifyProductPayload product.productType imageId product.listingCopy
        match createPrintifyProduct product.productType imageId product.listingCopy (o.createRes 0) with
        | .error e =>
          { calls := [.shops, .upload, .create], uploadRequest := some req,
            createRequest := some payload, errorMsg := some e, successMsg := none,
            finalizedProducts := prev }
        | .ok printifyProduct =>
          { calls := [.shops, .upload, .create], uploadRequest := some req,
            createRequest := some payload, errorMsg := none,
            successMsg := some ("Successfully created \"" ++ printifyProduct.title ++ "\" in Printify!"),
            finalizedProducts := publishUpdate prev product printifyProduct.id }

/-! ## Concrete fixtures used by witnesses and counterexamples -/

def conceptEx : ProductConcept :=
  { conceptTitle := "Cozy Pines", displayText := "Oh So Merry",
    fusion := ["retro", "cozy"], vision := "A cozy scene.",
    whyItWorks := "Cozy sells." }

def copyEx : ListingCopy :=
  { title := "Cozy Pines Mug", description := "A mug.",
    variations := ["11oz"], tags := ["mug"] }

def urlEx : String := "data:image/png;base64,QUFB"

/-- A mockup response carrying an extractable image for the first three
templates and none for the rest. -/
def respEx (i : Nat) : GenResponse :=
  if i < 3 then
    let part : ResponsePart :=
      { inlineData := some { mimeType := "image/png", data := "IMG" ++ toString i },
        text := none }
    { candidates := some [{ content := { parts := some [part] } }] }
  else { candidates := some [] }

def terminalErrEx : JsError :=
  { status := some 400, responseStatus := none, errorCode := none,
    message := some "Bad Request: invalid argument", errorMessage := none,
    stringified := "\x7b\x7d" }

def transientErrEx : JsError :=
  { status := some 503, responseStatus := none, errorCode := none,
    message := some "Service Unavailable", errorMessage := none,
    stringified := "\x7b\x7d" }

def taskEx : DesignTask :=
  { item := { concept := conceptEx, url := urlEx, productType := .mug },
    copyA := fun _ => Except.ok copyEx,
    mockA := fun i _ => Except.ok (respEx i) }

def taskFailEx : DesignTask :=
  { item := { concept := conceptEx, url := urlEx, productType := .mug },
    copyA := fun _ => Except.error terminalErrEx,
    mockA := fun i _ => Except.ok (respEx i) }

def shopEx : PrintifyShop := { id := "shop-1", title := "My Shop" }

def upRespEx : PrintifyImageUploadResponse :=
  { id := "img-9", file_name := "f.png", url := "u" }

def prRespEx : PrintifyProductResponse :=
  { id := "prod-7", title := "Cozy Pines Mug", external_id := "x" }

def finProdEx : FinalizedProduct :=
  { concept := conceptEx, designUrl := urlEx, mockups := ["m"],
    listingCopy := copyEx, productType := .mug, printifyId := none }

def otherProdEx : FinalizedProduct :=
  { concept := { conceptEx with conceptTitle := "Other Title" },
    designUrl := urlEx, mockups := [], listingCopy := copyEx,
    productType := .tshirt, printifyId := none }

/-- A commerce oracle whose shop call fails transiently on the first
attempt and would succeed from the second attempt on. -/
def transientShopsOracleEx : PublishOracles :=
  { shops := fun k => if k = 0 then FetchRes.httpError "429 Too Many Requests"
      else FetchRes.ok [shopEx],
    uploadRes := fun _ => FetchRes.ok upRespEx,
    createRes := fun _ => FetchRes.ok prRespEx }

/-- A commerce oracle whose shop call fails on every attempt; it agrees
with transientShopsOracleEx on every first attempt. -/
def persistentShopsOracleEx : PublishOracles :=
  { shops := fun _ => FetchRes.httpError "429 Too Many Requests",
    uploadRes := fun _ => FetchRes.ok upRespEx,
    createRes := fun _ => FetchRes.ok prRespEx }

def goodPublishOracleEx : PublishOracles :=
  { shops := fun _ => FetchRes.ok [shopEx],
    uploadRes := fun _ => FetchRes.ok upRespEx,
    createRes := fun _ => FetchRes.ok prRespEx }

/-! ## Sanity examples for the stages -/

example : base64ToPart urlEx = Except.ok { mimeType := "image/png", data := "QUFB" } := by decide

example : base64ToPart "nocomma" = Except.error (Err.mk invalidDataUrlMsg) := rfl

example :
    (generateFinalAssets urlEx conceptEx "Christmas" ProductType.mug
      (fun _ => Except.ok copyEx) (fun i _ => Except.ok (respEx i))).result =
    Except.ok (["data:image/jpeg;base64,IMG0", "data:image/jpeg;base64,IMG1",
      "data:image/jpeg;base64,IMG2"], copyEx) := by decide

example :
    (designRun "Christmas" taskEx).result.isOk = true := by decide

/-! ## Helper lemmas on substring search -/

theorem listHasPre_iff : ∀ (pat l : List Char),
    listHasPre pat l = true ↔ ∃ rest, l = pat ++ rest := by
  intro pat
  induction pat with
  | nil => intro l; simp [listHasPre]
  | cons a pat ih =>
    intro l
    cases l with
    | nil => simp [listHasPre]
    | cons b l =>
      simp only [listHasPre, Bool.and_eq_true, beq_iff_eq, ih, List.cons_append,
        List.cons.injEq]
      constructor
      · rintro ⟨rfl, rest, rfl⟩
        exact ⟨rest, rfl, rfl⟩
      · rintro ⟨rest, rfl, rfl⟩
        exact ⟨rfl, rest, rfl⟩

theorem listContains_iff : ∀ (l pat : List Char),
    listContains pat l = true ↔ ∃ pre post, l = pre ++ pat ++ post := by
  intro l
  induction l with
  | nil =>
    intro pat
    simp only [listContains, List.isEmpty_iff]
    constructor
    · rintro rfl
      exact ⟨[], [], rfl⟩
    · rintro ⟨pre, post, hp⟩
      rcases List.append_eq_nil.mp hp.symm with ⟨h1, -⟩
      exact (List.append_eq_nil.mp h1).2
  | cons c l ih =>
    intro pat
    simp only [listContains, Bool.or_eq_true, listHasPre_iff, ih]
    constructor
    · rintro (⟨rest, hr⟩ | ⟨pre, post, hp⟩)
      · exact ⟨[], rest, by simpa using hr⟩
      · exact ⟨c :: pre, post, by simp [hp]⟩
    · rintro ⟨pre, post, hp⟩
      cases pre with
      | nil => exact Or.inl ⟨post, by simpa using hp⟩
      | cons c' pre =>
        simp only [List.cons_append, List.cons.injEq] at hp
        exact Or.inr ⟨pre, post, hp.2⟩

theorem containsSubstr_iff (s pat : String) :
    containsSubstr s pat = true ↔ ∃ pre post, s.toList = pre ++ pat.toList ++ post :=
  listContains_iff s.toList pat.toList

/-! ## Helper lemmas on the executor -/

theorem withRetryGo_waits {α : Type} (attempts : Nat → Except JsError α) :
    ∀ fuel k delay,
      (withRetryGo attempts k delay fuel).2 =
        (List.range (withRetryGo attempts k delay fuel).2.length).map
          (fun i => delay * 2 ^ i) ∧
      (withRetryGo attempts k delay fuel).2.length ≤ fuel := by
  intro fuel
  induction fuel with
  | zero =>
    intro k delay
    unfold withRetryGo
    cases h : attempts k with
    | ok v => simp
    | error e => by_cases hr : isRetryable e <;> simp [hr]
  | succ n ih =>
    intro k delay
    unfold withRetryGo
    cases h : attempts k with
    | ok v => simp
    | error e =>
      by_cases hr : isRetryable e
      · obtain ⟨h1, h2⟩ := ih (k + 1) (delay * 2)
        simp only [hr, if_true]
        refine ⟨?_, by simpa using Nat.succ_le_succ h2⟩
        simp only [List.length_cons, List.range_succ_eq_map, List.map_cons, List.map_map,
          pow_zero, mul_one, List.cons.injEq, true_and]
        have hfun :
            ((fun i => delay * 2 ^ i) ∘ Nat.succ) = (fun i => delay * 2 * 2 ^ i) :=
          funext (fun i => by simp [pow_succ]; ring)
        rw [hfun]
        exact h1
      · simp [hr]

theorem withRetryGo_busy {α : Type} (attempts : Nat → Except JsError α) (es : Nat → JsError) :
    ∀ fuel k delay,
      (∀ j, j ≤ fuel → attempts (k + j) = Except.error (es (k + j)) ∧
        isRetryable (es (k + j)) = true) →
      (withRetryGo attempts k delay fuel).1 =
        RetryResult.busy (busyMessage (es (k + fuel))) := by
  intro fuel
  induction fuel with
  | zero =>
    intro k delay h
    obtain ⟨ha, hr⟩ := h 0 (Nat.le_refl 0)
    rw [Nat.add_zero] at ha hr
    unfold withRetryGo
    rw [ha]
    simp [hr]
  | succ n ih =>
    intro k delay h
    obtain ⟨ha, hr⟩ := h 0 (Nat.zero_le _)
    rw [Nat.add_zero] at ha hr
    unfold withRetryGo
    rw [ha]
    simp only [hr, if_true]
    have hrec := ih (k + 1) (delay * 2) (fun j hj => by
      have hh := h (j + 1) (Nat.succ_le_succ hj)
      rwa [show k + (j + 1) = k + 1 + j by omega] at hh)
    rw [show k + (n + 1) = k + 1 + n by omega]
    exact hrec

/-! ## Claim theorems: the executor -/

/-- Claim C1: for every wrapped remote operation the executor performs at
most maxRetries backoff waits, one immediately before each retry, and the
wait sequence is exactly initialDelay doubling at each step with no cap
(the defaults being 5 retries and 2000 milliseconds); a terminal-classified
failure of the first attempt is propagated as the original error at once,
with no retry and no wait. -/
theorem withRetry_bounded_backoff {α : Type} (attempts : Nat → Except JsError α)
    (maxRetries initialDelay : Nat) :
    (withRetry attempts maxRetries initialDelay).2.length ≤ maxRetries ∧
    (withRetry attempts maxRetries initialDelay).2 =
      (List.range (withRetry attempts maxRetries initialDelay).2.length).map
        (fun i => initialDelay * 2 ^ i) ∧
    defaultMaxRetries = 5 ∧ defaultInitialDelay = 2000 ∧
    (∀ e, attempts 0 = Except.error e → isRetryable e = false →
      withRetry attempts maxRetries initialDelay = (RetryResult.failed e, [])) := by
  refine ⟨(withRetryGo_waits attempts maxRetries 0 initialDelay).2,
    (withRetryGo_waits attempts maxRetries 0 initialDelay).1, rfl, rfl, ?_⟩
  intro e ha hr
  unfold withRetry withRetryGo
  rw [ha]
  simp [hr]

/-- Witness for C1: a concrete terminal-classified error is propagated
unchanged with no wait. -/
theorem withRetry_bounded_backoff_witness :
    withRetry (fun _ => (Except.error terminalErrEx : Except JsError Nat))
      defaultMaxRetries defaultInitialDelay = (RetryResult.failed terminalErrEx, []) :=
  (withRetry_bounded_backoff (fun _ => (Except.error terminalErrEx : Except JsError Nat))
    defaultMaxRetries defaultInitialDelay).2.2.2.2 terminalErrEx rfl (by decide)

/-- Claim C6: the classification is a pure predicate of the error value:
transient exactly when the lower-cased extracted message contains one of
the six markers or the extracted status equals 500 or 503, where the
message is probed from the top-level field, the nested error field, or the
JSON serialization, and the status from the top level, the nested response,
or the nested error code (getMessage and getStatus). -/
theorem isRetryable_characterization (e : JsError) :
    isRetryable e = true ↔
      ((∃ pre post, (lowerStr (getMessage e)).toList = pre ++ "429".toList ++ post) ∨
       (∃ pre post, (lowerStr (getMessage e)).toList = pre ++ "resource_exhausted".toList ++ post) ∨
       (∃ pre post, (lowerStr (getMessage e)).toList = pre ++ "quota".toList ++ post) ∨
       (∃ pre post, (lowerStr (getMessage e)).toList = pre ++ "internal".toList ++ post) ∨
       (∃ pre post, (lowerStr (getMessage e)).toList = pre ++ "overloaded".toList ++ post) ∨
       (∃ pre post, (lowerStr (getMessage e)).toList = pre ++ "server error".toList ++ post) ∨
       getStatus e = some 500 ∨ getStatus e = some 503) := by
  simp only [isRetryable, Bool.or_eq_true, containsSubstr_iff, beq_iff_eq, or_assoc]

/-- Witness for C6: a concrete 503 error is classified transient. -/
theorem isRetryable_characterization_witness :
    isRetryable transientErrEx = true :=
  (isRetryable_characterization transientErrEx).mpr
    (Or.inr (Or.inr (Or.inr (Or.inr (Or.inr (Or.inr (Or.inr (by decide))))))))

/-- Counterexample to claim C7 as stated: after exhausting its retries on a
concrete transient 503 error, the executor throws the busy error, and that
message contains the digits 503 — the status detail of the underlying
failure — so the message does not hide the internal status detail. -/
theorem busyMessage_exposes_status :
    (withRetry (fun _ => (Except.error transientErrEx : Except JsError Nat))
      defaultMaxRetries defaultInitialDelay).1 =
      RetryResult.busy "The AI service is temporarily busy (Error 503). Please try again shortly." ∧
    containsSubstr "The AI service is temporarily busy (Error 503). Please try again shortly."
      (statusStr (getStatus transientErrEx)) = true := by
  constructor
  · decide
  · decide

/-- Claim C7 amended: once a transient-classified error has exhausted its
retries, the executor fails with the fixed user-facing busy template, which
depends on the underlying failure only through its status code: it
discloses that status code but hides the message and every other detail of
the underlying error. -/
theorem withRetry_busy_after_exhaustion {α : Type} (attempts : Nat → Except JsError α)
    (maxRetries initialDelay : Nat) (es : Nat → JsError)
    (h : ∀ k, k ≤ maxRetries → attempts k = Except.error (es k) ∧
      isRetryable (es k) = true) :
    (withRetry attempts maxRetries initialDelay).1 =
      RetryResult.busy ("The AI service is temporarily busy (Error " ++
        statusStr (getStatus (es maxRetries)) ++ "). Please try again shortly.") ∧
    (∀ e1 e2 : JsError, getStatus e1 = getStatus e2 → busyMessage e1 = busyMessage e2) := by
  constructor
  · have := withRetryGo_busy attempts es maxRetries 0 initialDelay (fun j hj => by
      simpa using h j hj)
    simpa [withRetry, busyMessage] using this
  · intro e1 e2 hs
    unfold busyMessage
    rw [hs]

/-- Witness for C7 amended: the concrete 503 error yields the concrete busy
message after exhaustion. -/
theorem withRetry_busy_after_exhaustion_witness :
    (withRetry (fun _ => (Except.error transientErrEx : Except JsError Nat)) 5 2000).1 =
      RetryResult.busy ("The AI service is temporarily busy (Error " ++
        statusStr (getStatus transientErrEx) ++ "). Please try again shortly.") :=
  (withRetry_busy_after_exhaustion
    (fun _ => (Except.error transientErrEx : Except JsError Nat)) 5 2000
    (fun _ => transientErrEx)
    (fun k _ => ⟨rfl, (by decide : isRetryable transientErrEx = true)⟩)).1

/-! ## Claim C8: the listing-copy soft contract -/

/-- Claim C8: every collaborator response that parses as the structured
ListingCopy shape is returned by the stage exactly as received — whatever
its title length, tag count or tag lengths, there is no client-side
validation, rejection or correction. -/
theorem generateListingCopy_passthrough (attempts : Nat → Except JsError ListingCopy)
    (c : ListingCopy)
    (h : (withRetry attempts defaultMaxRetries defaultInitialDelay).1 = RetryResult.ok c) :
    generateListingCopy attempts = Except.ok c := by
  unfold generateListingCopy
  rw [h]
  rfl

def longTitleEx : String := String.mk (List.replicate 150 'x')

/-- A ListingCopy violating every requested constraint: a 150-character
title, two tags instead of thirteen, and a 45-character first tag. -/
def badListingCopyEx : ListingCopy :=
  { title := longTitleEx, description := "d", variations := ["v1", "v2"],
    tags := ["this tag is way longer than twenty characters", "short"] }

/-- Witness for C8: the concrete non-conforming ListingCopy passes through
unchanged. -/
theorem generateListingCopy_passthrough_witness :
    badListingCopyEx.title.length = 150 ∧ badListingCopyEx.tags.length = 2 ∧
    (badListingCopyEx.tags.getD 0 "").length = 45 ∧
    generateListingCopy (fun _ => Except.ok badListingCopyEx) = Except.ok badListingCopyEx :=
  ⟨by decide, by decide, by decide,
    generateListingCopy_passthrough (fun _ => Except.ok badListingCopyEx) badListingCopyEx rfl⟩

/-! ## Helper lemmas on the mockup loop and the finalization trace -/

def exceptIsOk {ε α : Type} : Except ε α → Bool
  | .ok _ => true
  | .error _ => false

theorem exceptIsOk_map {ε α β : Type} (f : α → β) (x : Except ε α) :
    exceptIsOk (x.map f) = exceptIsOk x := by
  cases x <;> rfl

theorem mockupGo_all_ok (mockA : Nat → Nat → Except JsError GenResponse)
    (resp : Nat → GenResponse) (T : Nat) :
    ∀ n i, (∀ j, j < n →
      (withRetry (mockA (i + j)) defaultMaxRetries defaultInitialDelay).1 =
        RetryResult.ok (resp (i + j))) →
    (mockupGo mockA T i n).1 = Except.ok ((List.range' i n).filterMap
      (fun j => (findImagePart (resp j)).map
        (fun d => "data:image/jpeg;base64," ++ d.data))) ∧
    (mockupGo mockA T i n).2 = ((List.range' i n).map
      (fun j => [TraceItem.report (j + 2) T, TraceItem.call (.mockup j)])).flatten := by
  intro n
  induction n with
  | zero =>
    intro i h
    simp [mockupGo]
  | succ m ih =>
    intro i h
    have h0 := h 0 (Nat.succ_pos m)
    rw [Nat.add_zero] at h0
    obtain ⟨ih1, ih2⟩ := ih (i + 1) (fun j hj => by
      have hh := h (j + 1) (Nat.succ_lt_succ hj)
      rwa [show i + (j + 1) = i + 1 + j by omega] at hh)
    unfold mockupGo
    rw [h0]
    simp only [retryToExcept, List.range'_succ, List.filterMap_cons, List.map_cons]
    cases hf : findImagePart (resp i) with
    | none =>
      simp only [hf]
      exact ⟨ih1, by simp [ih2]⟩
    | some d =>
      simp only [hf, ih1, Except.map]
      exact ⟨rfl, by simp [ih2]⟩

/-! ## Claim C2: the mockup batch -/

/-- Claim C2: when the listing copy, the data-URL parse and all twelve
per-template executor calls succeed, the batch returns exactly the images
extracted, in template order, skipped templates simply omitted, and fails
with the no-mockups error exactly when no template yielded an extractable
image. -/
theorem mockup_batch_template_order (designUrl : String) (concept : ProductConcept)
    (holiday : String) (productType : ProductType)
    (copyA : Nat → Except JsError ListingCopy)
    (mockA : Nat → Nat → Except JsError GenResponse)
    (c : ListingCopy) (resp : Nat → GenResponse) (pt0 : InlinePart)
    (hcopy : (withRetry copyA defaultMaxRetries defaultInitialDelay).1 = RetryResult.ok c)
    (hurl : base64ToPart designUrl = Except.ok pt0)
    (hmock : ∀ i, i < 12 →
      (withRetry (mockA i) defaultMaxRetries defaultInitialDelay).1 =
        RetryResult.ok (resp i)) :
    (generateFinalAssets designUrl concept holiday productType copyA mockA).result =
      (if ((List.range 12).filterMap (fun i => (findImagePart (resp i)).map
            (fun d => "data:image/jpeg;base64," ++ d.data))) = []
       then Except.error (Err.mk "No mockups were generated.")
       else Except.ok (((List.range 12).filterMap (fun i => (findImagePart (resp i)).map
            (fun d => "data:image/jpeg;base64," ++ d.data))), c)) := by
  have hcopy' : generateListingCopy copyA = Except.ok c := by
    unfold generateListingCopy
    rw [hcopy]
    rfl
  obtain ⟨hm1, hm2⟩ := mockupGo_all_ok mockA resp (12 + 1) 12 0
    (fun j hj => by simpa using hmock j hj)
  simp only [generateFinalAssets, hcopy', hurl, getMockupPrompts_length]
  rw [hm1]
  rw [List.range_eq_range']
  by_cases hL : (List.range' 0 12).filterMap (fun j => (findImagePart (resp j)).map
      (fun d => "data:image/jpeg;base64," ++ d.data)) = []
  · simp [hL]
  · simp [hL, List.isEmpty_iff]

/-- Witness for C2: with images extracted from the first three templates
only, the batch returns exactly those three jpeg data URLs, in order. -/
theorem mockup_batch_template_order_witness :
    (generateFinalAssets urlEx conceptEx "Christmas" ProductType.mug
      (fun _ => Except.ok copyEx) (fun i _ => Except.ok (respEx i))).result =
      (if ((List.range 12).filterMap (fun i => (findImagePart (respEx i)).map
            (fun d => "data:image/jpeg;base64," ++ d.data))) = []
       then Except.error (Err.mk "No mockups were generated.")
       else Except.ok (((List.range 12).filterMap (fun i => (findImagePart (respEx i)).map
            (fun d => "data:image/jpeg;base64," ++ d.data))), copyEx)) :=
  mockup_batch_template_order urlEx conceptEx "Christmas" ProductType.mug
    (fun _ => Except.ok copyEx) (fun i _ => Except.ok (respEx i)) copyEx respEx
    { mimeType := "image/png", data := "QUFB" } rfl (by decide) (fun i _ => rfl)

/-! ## The trace of a fully successful tuple -/

/-- The trace of one successfully finalized tuple: the zero report, the
listing-copy call, the after-copy report, then for each template i the
report (i + 2, 13) followed by the mockup call, totalSteps being
1 + 12 = 13. -/
def tupleSuccessTrace : List TraceItem :=
  [.report 0 13, .call .listing, .report 1 13] ++
    ((List.range' 0 12).map
      (fun i => [TraceItem.report (i + 2) 13, TraceItem.call (.mockup i)])).flatten

theorem mockupGo_isOk_trace (mockA : Nat → Nat → Except JsError GenResponse) (T : Nat) :
    ∀ n i, exceptIsOk (mockupGo mockA T i n).1 = true →
      (mockupGo mockA T i n).2 = ((List.range' i n).map
        (fun j => [TraceItem.report (j + 2) T, TraceItem.call (.mockup j)])).flatten := by
  intro n
  induction n with
  | zero =>
    intro i h
    simp [mockupGo]
  | succ m ih =>
    intro i h
    unfold mockupGo at h ⊢
    cases hr : retryToExcept (withRetry (mockA i) defaultMaxRetries defaultInitialDelay).1 with
    | error m' =>
      rw [hr] at h
      simp [exceptIsOk] at h
    | ok resp =>
      rw [hr] at h
      dsimp only at h ⊢
      cases hf : findImagePart resp with
      | none =>
        rw [hf] at h
        dsimp only at h ⊢
        rw [ih (i + 1) h]
        simp [List.range'_succ]
      | some d =>
        rw [hf] at h
        dsimp only at h ⊢
        rw [exceptIsOk_map] at h
        rw [ih (i + 1) h]
        simp [List.range'_succ]

theorem designRun_ok_trace (holiday : String) (t : DesignTask)
    (h : exceptIsOk (designRun holiday t).result = true) :
    (designRun holiday t).trace = tupleSuccessTrace := by
  unfold designRun generateFinalAssets at h ⊢
  cases hc : generateListingCopy t.copyA with
  | error m =>
    rw [hc] at h
    simp [exceptIsOk] at h
  | ok c =>
    rw [hc] at h
    dsimp only at h ⊢
    cases hb : base64ToPart t.item.url with
    | error m =>
      rw [hb] at h
      simp [exceptIsOk] at h
    | ok p =>
      rw [hb] at h
      dsimp only at h ⊢
      rw [getMockupPrompts_length] at h ⊢
      cases hl : (mockupGo t.mockA (12 + 1) 0 12).1 with
      | error m =>
        rw [hl] at h
        simp [exceptIsOk] at h
      | ok urls =>
        rw [hl] at h
        dsimp only at h ⊢
        have ht := mockupGo_isOk_trace t.mockA (12 + 1) 12 0 (by rw [hl]; rfl)
        by_cases he : urls.isEmpty
        · simp [he, exceptIsOk] at h
        · simp [he, ht, tupleSuccessTrace]

theorem handleForgeAssets_ok_trace (holiday : String) :
    ∀ tasks : List DesignTask,
      (∀ t ∈ tasks, exceptIsOk (designRun holiday t).result = true) →
      (handleForgeAssets holiday tasks).trace =
        (tasks.map (fun _ => tupleSuccessTrace)).flatten := by
  intro tasks
  induction tasks with
  | nil => intro h; rfl
  | cons t rest ih =>
    intro h
    have ht := h t (List.mem_cons_self t rest)
    have hr := ih (fun t' ht' => h t' (List.mem_cons_of_mem t ht'))
    have htr := designRun_ok_trace holiday t ht
    unfold handleForgeAssets
    cases hres : (designRun holiday t).result with
    | error m =>
      rw [hres] at ht
      simp [exceptIsOk] at ht
    | ok pr =>
      dsimp only
      simp only [List.map_cons, List.flatten_cons]
      rw [htr, hr, hres]

/-! ## Claim C3: the progress protocol -/

/-- Counterexample to claim C3 as stated: a two-tuple batch in which every
step succeeds delivers 28 progress reports, every one of them with total
13 rather than the batch-wide total 2 x (1 + 12) = 26, and the report
after the first tuple finishes restarts at (0, 13) — the pair at index 13
is (13, 13) while the pair at index 14 is (0, 13), so the delivered
sequence is not strictly increasing across the batch and the counter does
not accumulate. -/
theorem finalization_progress_not_batchwide :
    (traceReports (handleForgeAssets "Christmas" [taskEx, taskEx]).trace).length = 28 ∧
    (traceReports (handleForgeAssets "Christmas" [taskEx, taskEx]).trace).get? 13 =
      some (13, 13) ∧
    (traceReports (handleForgeAssets "Christmas" [taskEx, taskEx]).trace).get? 14 =
      some (0, 13) := by
  refine ⟨by decide, by decide, by decide⟩

/-- Claim C3 amended: over a batch whose tuples all succeed, the callback
receives, for each tuple separately, the strictly increasing report
sequence (0, 13), (1, 13), ..., (13, 13) with 13 = 1 + 12 mockup steps;
the counter restarts at zero for each tuple instead of accumulating to
T x 13 across the batch, the report (1, 13) is delivered after the
listing-copy step completes, and each mockup report (i + 2, 13) is
delivered immediately before mockup i + 1 runs, with no report after the
final mockup completes. -/
theorem finalization_progress_per_tuple (holiday : String) (tasks : List DesignTask)
    (h : ∀ t ∈ tasks, exceptIsOk (designRun holiday t).result = true) :
    (handleForgeAssets holiday tasks).trace =
      (tasks.map (fun _ => tupleSuccessTrace)).flatten ∧
    traceReports tupleSuccessTrace = (List.range 14).map (fun k => (k, 13)) :=
  ⟨handleForgeAssets_ok_trace holiday tasks h, by decide⟩

/-- Witness for C3 amended: the one-tuple batch over the concrete task
produces exactly one copy of the per-tuple trace. -/
theorem finalization_progress_per_tuple_witness :
    (handleForgeAssets "Christmas" [taskEx]).trace =
      ([taskEx].map (fun _ => tupleSuccessTrace)).flatten :=
  (finalization_progress_per_tuple "Christmas" [taskEx]
    (fun t ht => by
      rw [List.mem_singleton] at ht
      subst ht
      decide)).1

/-! ## Claim C4: all-or-nothing batches -/

/-- Claim C4: tuples are processed strictly in input order; when the tuples
before position i all succeed and tuple i fails, the batch result is
exactly tuple i's error, the finalized-products state is left empty (work
of completed earlier tuples is discarded), and the batch trace is the
concatenation of the earlier tuples' full traces with the failing tuple's
partial trace — no tuple after the failing one is started. -/
theorem handleForgeAssets_all_or_nothing (holiday : String) (t : DesignTask)
    (post : List DesignTask) :
    ∀ pre : List DesignTask,
      (∀ t' ∈ pre, exceptIsOk (designRun holiday t').result = true) →
      exceptIsOk (designRun holiday t).result = false →
      (∃ m, (designRun holiday t).result = Except.error m ∧
        (handleForgeAssets holiday (pre ++ t :: post)).result = Except.error m) ∧
      batchFinalizedState (handleForgeAssets holiday (pre ++ t :: post)).result = [] ∧
      (handleForgeAssets holiday (pre ++ t :: post)).trace =
        (pre.map (fun t' => (designRun holiday t').trace)).flatten ++
          (designRun holiday t).trace := by
  intro pre
  induction pre with
  | nil =>
    intro hpre hfail
    cases hres : (designRun holiday t).result with
    | ok pr =>
      rw [hres] at hfail
      simp [exceptIsOk] at hfail
    | error m =>
      simp only [List.nil_append]
      refine ⟨⟨m, rfl, ?_⟩, ?_, ?_⟩
      · unfold handleForgeAssets
        dsimp only
        rw [hres]
      · unfold handleForgeAssets
        dsimp only
        rw [hres]
        rfl
      · unfold handleForgeAssets
        dsimp only
        rw [hres]
        simp
  | cons t' pre ih =>
    intro hpre hfail
    have ht' := hpre t' (List.mem_cons_self t' pre)
    obtain ⟨⟨m, hm1, hm2⟩, hstate, htrace⟩ :=
      ih (fun x hx => hpre x (List.mem_cons_of_mem t' hx)) hfail
    cases hres' : (designRun holiday t').result with
    | error m' =>
      rw [hres'] at ht'
      simp [exceptIsOk] at ht'
    | ok pr =>
      simp only [List.cons_append]
      refine ⟨⟨m, hm1, ?_⟩, ?_, ?_⟩
      · unfold handleForgeAssets
        dsimp only
        rw [hres']
        dsimp only
        rw [hm2]
      · unfold handleForgeAssets
        dsimp only
        rw [hres']
        dsimp only
        rw [hm2]
        rfl
      · unfold handleForgeAssets
        dsimp only
        rw [hres']
        dsimp only
        rw [htrace]
        simp [List.flatten_cons, List.append_assoc]

/-- Witness for C4: a batch of a succeeding task, a failing task and a
further task yields the empty finalized-products state. -/
theorem handleForgeAssets_all_or_nothing_witness :
    batchFinalizedState
      (handleForgeAssets "Christmas" ([taskEx] ++ taskFailEx :: [taskEx])).result = [] :=
  (handleForgeAssets_all_or_nothing "Christmas" taskFailEx [taskEx] [taskEx]
    (fun t ht => by
      rw [List.mem_singleton] at ht
      subst ht
      decide)
    (by decide)).2.1

/-! ## Claim C10: invalid data URLs -/

theorem splitFirst_eq (c : Char) : ∀ (l pre post : List Char),
    splitFirst c l = some (pre, post) → l = pre ++ c :: post := by
  intro l
  induction l with
  | nil =>
    intro pre post h
    simp [splitFirst] at h
  | cons a l ih =>
    intro pre post h
    unfold splitFirst at h
    by_cases hac : a == c
    · rw [if_pos hac] at h
      simp only [Option.some.injEq, Prod.mk.injEq] at h
      obtain ⟨h1, h2⟩ := h
      rw [beq_iff_eq] at hac
      subst hac
      rw [← h1, ← h2]
      rfl
    · rw [if_neg hac] at h
      cases hsp : splitFirst c l with
      | none =>
        rw [hsp] at h
        simp at h
      | some pq =>
        obtain ⟨p, q⟩ := pq
        rw [hsp] at h
        simp only [Option.some.injEq, Prod.mk.injEq] at h
        obtain ⟨h1, h2⟩ := h
        rw [← h1, ← h2]
        rw [ih p q hsp]
        rfl

theorem base64ToPart_invalid (s : String) (h : containsSeparatingComma s = false) :
    base64ToPart s = Except.error (Err.mk invalidDataUrlMsg) := by
  unfold base64ToPart
  cases hsp : splitFirst ',' s.toList with
  | none => rfl
  | some hp =>
    obtain ⟨header, rest⟩ := hp
    have hl : s.toList = header ++ ',' :: rest := splitFirst_eq ',' s.toList header rest hsp
    have hany : ∀ i ∈ List.range s.toList.length, ¬goodCommaAt s.toList i = true := by
      rw [containsSeparatingComma, List.any_eq_false] at h
      exact h
    have hcase : header = [] ∨ rest = [] := by
      by_contra hc
      push_neg at hc
      obtain ⟨h1, h2⟩ := hc
      have hlen : s.toList.length = header.length + 1 + rest.length := by
        rw [hl]
        simp [List.length_append]
        omega
      have hmem : header.length ∈ List.range s.toList.length := by
        rw [List.mem_range, hlen]
        omega
      have hg := hany header.length hmem
      unfold goodCommaAt at hg
      have hget : s.toList.getD header.length ' ' = ',' := by
        rw [hl, List.getD_eq_getElem?_getD,
          List.getElem?_append_right (Nat.le_refl header.length)]
        simp
      rw [hget] at hg
      have h0 : 0 < header.length := List.length_pos.mpr h1
      have h3 : header.length + 1 < s.toList.length := by
        have := List.length_pos.mpr h2
        rw [hlen]
        omega
      have hsl : s.length = s.toList.length := rfl
      simp [h0, h3] at hg
      omega
    rcases hcase with hH | hR
    · subst hH
      simp
    · subst hR
      simp [splitFirst]

/-- Claim C10: for every design URL that does not contain a comma
separating non-empty text from non-empty text, the finalization stage for
that design fails with the invalid-data-URL error, and only after the
listing-copy remote call has already been made: the run trace is exactly
the initial report, the listing-copy call and the after-copy report, with
no mockup call. -/
theorem invalid_data_url_fails_after_copy (designUrl : String) (concept : ProductConcept)
    (holiday : String) (productType : ProductType)
    (copyA : Nat → Except JsError ListingCopy)
    (mockA : Nat → Nat → Except JsError GenResponse) (c : ListingCopy)
    (hurl : containsSeparatingComma designUrl = false)
    (hcopy : generateListingCopy copyA = Except.ok c) :
    (generateFinalAssets designUrl concept holiday productType copyA mockA).result =
      Except.error (Err.mk invalidDataUrlMsg) ∧
    (generateFinalAssets designUrl concept holiday productType copyA mockA).trace =
      [TraceItem.report 0 13, TraceItem.call CallKind.listing, TraceItem.report 1 13] := by
  have hb := base64ToPart_invalid designUrl hurl
  simp [generateFinalAssets, getMockupPrompts_length, hcopy, hb]

/-- Witness for C10: a URL with no comma makes the concrete finalization
run fail with the invalid-data-URL error after a successful listing-copy
call. -/
theorem invalid_data_url_fails_after_copy_witness :
    containsSeparatingComma "nocomma" = false ∧
    (generateFinalAssets "nocomma" conceptEx "Christmas" ProductType.mug
      (fun _ => Except.ok copyEx) (fun i _ => Except.ok (respEx i))).result =
      Except.error (Err.mk invalidDataUrlMsg) :=
  ⟨by decide, (invalid_data_url_fails_after_copy "nocomma" conceptEx "Christmas"
    ProductType.mug (fun _ => Except.ok copyEx) (fun i _ => Except.ok (respEx i)) copyEx
    (by decide) rfl).1⟩

/-! ## Claim C5: the publish stage and the executor -/

/-- Counterexample to claim C5 as stated: against an oracle whose
shop-resolution call fails with a rate-limit-shaped HTTP error on its first
attempt and would succeed from the second attempt on, the publish stage
makes exactly one commerce call, surfaces the raw failure immediately and
leaves the state untouched — the call is not executed through the retrying
Executor and no retry happens before failing. -/
theorem publish_no_retry_counterexample :
    (handlePrintifyPublish "tok" finProdEx [finProdEx] transientShopsOracleEx).calls =
      [PubCall.shops] ∧
    (handlePrintifyPublish "tok" finProdEx [finProdEx] transientShopsOracleEx).errorMsg =
      some (Err.mk "Failed to fetch Printify shops. Check your API Token.") ∧
    transientShopsOracleEx.shops 1 = FetchRes.ok [shopEx] ∧
    (handlePrintifyPublish "tok" finProdEx [finProdEx] transientShopsOracleEx).finalizedProducts =
      [finProdEx] := by
  refine ⟨by decide, by decide, by decide, by decide⟩

/-- Claim C5 amended: none of the three publish calls goes through the
retrying Executor: every endpoint is consulted only at attempt index zero,
so the whole run is determined by the first attempt of each oracle, the
call sequence is always a prefix of shop resolution, upload, creation, and
an HTTP failure of the shop call surfaces immediately after that single
call with the state unchanged. -/
theorem publish_single_attempt (token : String) (product : FinalizedProduct)
    (prev : List FinalizedProduct) (o o' : PublishOracles)
    (hs : o.shops 0 = o'.shops 0) (hu : o.uploadRes 0 = o'.uploadRes 0)
    (hc : o.createRes 0 = o'.createRes 0) :
    handlePrintifyPublish token product prev o = handlePrintifyPublish token product prev o' ∧
    ((handlePrintifyPublish token product prev o).calls = [] ∨
     (handlePrintifyPublish token product prev o).calls = [PubCall.shops] ∨
     (handlePrintifyPublish token product prev o).calls = [PubCall.shops, PubCall.upload] ∨
     (handlePrintifyPublish token product prev o).calls =
       [PubCall.shops, PubCall.upload, PubCall.create]) ∧
    (∀ body, token ≠ "" → o.shops 0 = FetchRes.httpError body →
      (handlePrintifyPublish token product prev o).errorMsg =
        some (Err.mk "Failed to fetch Printify shops. Check your API Token.") ∧
      (handlePrintifyPublish token product prev o).calls = [PubCall.shops] ∧
      (handlePrintifyPublish token product prev o).finalizedProducts = prev) := by
  refine ⟨?_, ?_, ?_⟩
  · simp only [handlePrintifyPublish, hs, hu, hc]
  · unfold handlePrintifyPublish
    by_cases ht : token = ""
    · simp [ht]
    · simp only [ht, if_false]
      cases getPrintifyShop (o.shops 0) with
      | error e => simp
      | ok s =>
        dsimp only
        cases uploadImageToPrintify product.designUrl
            (sanitizeForFilename product.concept.conceptTitle ++ ".png") (o.uploadRes 0) with
        | error e => simp
        | ok imageId =>
          dsimp only
          cases createPrintifyProduct product.productType imageId product.listingCopy
              (o.createRes 0) with
          | error e => simp
          | ok resp => simp
  · intro body ht hsh
    simp only [handlePrintifyPublish, if_neg ht, hsh, getPrintifyShop]
    exact ⟨trivial, trivial, trivial⟩

/-- Witness for C5 amended: two concrete oracles that agree on their first
attempts but differ from the second attempt on produce identical publish
runs. -/
theorem publish_single_attempt_witness :
    handlePrintifyPublish "tok" finProdEx [finProdEx] transientShopsOracleEx =
      handlePrintifyPublish "tok" finProdEx [finProdEx] persistentShopsOracleEx :=
  (publish_single_attempt "tok" finProdEx [finProdEx] transientShopsOracleEx
    persistentShopsOracleEx rfl rfl rfl).1

/-! ## Claim C9: the publish state update -/

/-- Claim C9: on a successful publish the state update stamps the new
publish identifier onto every finalized product whose concept title equals
the published product's concept title — not only the product passed to
publish — while products with a different title and every other field of
every product are left unchanged; the successful publish run performs
exactly this update with the created product's id. -/
theorem publishUpdate_frame (prev : List FinalizedProduct) (product : FinalizedProduct)
    (newId : String) :
    (publishUpdate prev product newId).length = prev.length ∧
    (∀ i (h1 : i < prev.length) (h2 : i < (publishUpdate prev product newId).length),
      ((prev.get ⟨i, h1⟩).concept.conceptTitle = product.concept.conceptTitle →
        (publishUpdate prev product newId).get ⟨i, h2⟩ =
          { prev.get ⟨i, h1⟩ with printifyId := some newId }) ∧
      (¬(prev.get ⟨i, h1⟩).concept.conceptTitle = product.concept.conceptTitle →
        (publishUpdate prev product newId).get ⟨i, h2⟩ = prev.get ⟨i, h1⟩)) ∧
    (∀ (token : String) (o : PublishOracles) (s : PrintifyShop)
      (ss : List PrintifyShop) (up : PrintifyImageUploadResponse)
      (cr : PrintifyProductResponse),
      token ≠ "" → o.shops 0 = FetchRes.ok (s :: ss) →
      o.uploadRes 0 = FetchRes.ok up → o.createRes 0 = FetchRes.ok cr →
      (handlePrintifyPublish token product prev o).finalizedProducts =
        publishUpdate prev product cr.id) := by
  refine ⟨by simp [publishUpdate], ?_, ?_⟩
  · intro i h1 h2
    constructor
    · intro hT
      simp only [List.get_eq_getElem] at hT
      simp [publishUpdate, List.get_eq_getElem, List.getElem_map, hT]
    · intro hT
      simp only [List.get_eq_getElem] at hT
      simp [publishUpdate, List.get_eq_getElem, List.getElem_map, hT]
  · intro token o s ss up cr ht hsh hup hcr
    simp only [handlePrintifyPublish, if_neg ht, hsh, hup, hcr, getPrintifyShop,
      uploadImageToPrintify, createPrintifyProduct]

/-- Witness for C9: publishing the concrete product against an all-success
oracle stamps the created id onto the matching product and leaves the
differently titled product untouched. -/
theorem publishUpdate_frame_witness :
    (handlePrintifyPublish "tok" finProdEx [finProdEx, otherProdEx]
      goodPublishOracleEx).finalizedProducts =
      publishUpdate [finProdEx, otherProdEx] finProdEx prRespEx.id ∧
    publishUpdate [finProdEx, otherProdEx] finProdEx prRespEx.id =
      [{ finProdEx with printifyId := some "prod-7" }, otherProdEx] :=
  ⟨(publishUpdate_frame [finProdEx, otherProdEx] finProdEx prRespEx.id).2.2 "tok"
      goodPublishOracleEx shopEx [] upRespEx prRespEx (by decide) rfl rfl rfl,
    by decide⟩
